import Mathlib

/-!
Verification development for the JodhpurOS point-of-sale assistant.

The definitions below are a shallow embedding of the TypeScript source:
`src/services/menuData.ts` (menu catalog), `src/components/LiveShopAssistant.tsx`
(fuzzy matcher, audio helpers, tool-call handler, dashboard filtering, session
report exporter) and the count-log CSV exporter component.

Machine numbers are modelled exactly: JS `number` values that hold currency
amounts, quantities and sample values become `ℚ`; millisecond epoch timestamps
become `ℤ`; array indices and lengths become `ℕ`.  Browser-locale dependent
formatting (`toLocaleTimeString`, number printing) is modelled by explicit
formatting parameters, since the source delegates it to the host environment.
-/

/-- JS `String.prototype.includes`: substring containment on the character
sequence (the empty pattern is contained in every string). -/
def strContains (s pat : String) : Bool :=
  decide (pat.toList <:+: s.toList)

/-- JS `String.prototype.toLowerCase` (all strings in this code base are
ASCII, where JS and per-character lowering agree). -/
def jsToLower (s : String) : String :=
  String.mk (s.toList.map Char.toLower)

/-- JS `String.prototype.trim`: strip whitespace from both ends. -/
def jsTrim (s : String) : String :=
  String.mk (((s.toList.dropWhile Char.isWhitespace).reverse.dropWhile
    Char.isWhitespace).reverse)

/-- Structure `MenuItem` from `src/services/menuData.ts`.  Every entry of the shipped
catalog declares `variations`, so the optional field is modelled as a list. -/
structure MenuItem where
  name : String
  price : ℚ
  category : String
  variations : List String
deriving DecidableEq, Repr

def samosaItem : MenuItem :=
  { name := "Samosa", price := 10, category := "KACHORI",
    variations := ["samose", "samosa", "aloovada samosa", "singhara", "samosas", "samosaa"] }

def kachoriItem : MenuItem :=
  { name := "Kachori", price := 30, category := "KACHORI",
    variations := ["kachori", "kachodi", "khasta", "pyaaz kachori", "pyaz wali",
                   "kanda kachori", "moti wali", "kachoris", "kachoriyan"] }

def dalKachoriItem : MenuItem :=
  { name := "Dal Kachori", price := 15, category := "KACHORI",
    variations := ["dal kachori", "moong dal", "choti kachori", "bina pyaaz ki",
                   "sadi kachori", "plain kachori"] }

def aloovadaItem : MenuItem :=
  { name := "Aloovada", price := 15, category := "KACHORI",
    variations := ["aloo vada", "batata vada", "bada", "aloo bonda", "vada"] }

def mirchiVadaItem : MenuItem :=
  { name := "Mirchi Vada", price := 25, category := "KACHORI",
    variations := ["mirchi vada", "mirchi bada", "jodhpur mirchi", "badi mirchi"] }

def lassanKoftaItem : MenuItem :=
  { name := "Lassan Kofta", price := 20, category := "KACHORI",
    variations := ["lassan kofta", "kofta", "lahsun kofta", "garlic kofta"] }

def khaman1kgItem : MenuItem :=
  { name := "Khaman 1kg", price := 300, category := "KACHORI",
    variations := ["khaman", "dhokla", "khaman dhokla"] }

def khaman250gmItem : MenuItem :=
  { name := "Khaman 250gm", price := 75, category := "KACHORI",
    variations := ["khaman pav", "khaman 250"] }

def khamanPlateItem : MenuItem :=
  { name := "Khaman 1 Plate", price := 30, category := "KACHORI",
    variations := ["khaman plate", "khaman ki plate"] }

def dhonaItem : MenuItem :=
  { name := "Dhona", price := 1, category := "KACHORI",
    variations := ["dhona", "pattal", "plate", "khali bowl"] }

def smallChutneyItem : MenuItem :=
  { name := "Small Chutney", price := 5, category := "KACHORI",
    variations := ["chutney", "chatni", "extra chutney", "meethi chatni", "khatti chatni"] }

def jalebi1kgItem : MenuItem :=
  { name := "Jalebi 1kg", price := 440, category := "JALEBI",
    variations := ["jalebi", "sweet", "kesar jalebi", "1 kilo jalebi"] }

def imarti1kgItem : MenuItem :=
  { name := "Imarti 1kg", price := 500, category := "JALEBI",
    variations := ["imarti", "jangri", "moti jalebi", "imarati"] }

def jalebiPlateItem : MenuItem :=
  { name := "Jalebi 1 Plate", price := 45, category := "JALEBI",
    variations := ["jalebi plate", "thodi jalebi"] }

def imartiPlateItem : MenuItem :=
  { name := "Imarti 1 Plate", price := 50, category := "JALEBI",
    variations := ["imarti plate"] }

def sweetsItem : MenuItem :=
  { name := "Sweets", price := 400, category := "SWEETS",
    variations := ["mithai", "box", "mithai ka dabba"] }

def namkeen1KgItem : MenuItem :=
  { name := "Namkeen 1 Kg", price := 300, category := "NAMKEEN 1 KG",
    variations := ["namkeen", "mixture", "sev", "bhujia"] }

def sebBoondiItem : MenuItem :=
  { name := "SEB BOONDI MIX (1 KG)", price := 300, category := "NAMKEEN 1 KG",
    variations := ["seb boondi", "boondi mix"] }

def feekiPapdiItem : MenuItem :=
  { name := "FEEKI PAPDI (1 KG)", price := 280, category := "NAMKEEN 1 KG",
    variations := ["feeki papdi", "papdi"] }

def gathiyaItem : MenuItem :=
  { name := "GATHIYA (1 KG)", price := 280, category := "NAMKEEN 1 KG",
    variations := ["gathiya", "ganthiya"] }

def safedSebItem : MenuItem :=
  { name := "SAFED SEB (1 KG)", price := 280, category := "NAMKEEN 1 KG",
    variations := ["safed sev", "white sev"] }

def kadkeItem : MenuItem :=
  { name := "KADKE (1 KG)", price := 280, category := "NAMKEEN 1 KG",
    variations := ["kadke"] }

def lahsunSebItem : MenuItem :=
  { name := "LAHSUN SEB (1 KG)", price := 300, category := "NAMKEEN 1 KG",
    variations := ["lahsun sev", "garlic sev"] }

def podinaSebItem : MenuItem :=
  { name := "PODINA SEB (1 KG)", price := 300, category := "NAMKEEN 1 KG",
    variations := ["podina sev", "mint sev"] }

def bhavNagriItem : MenuItem :=
  { name := "BHAV NAGRI (1 KG)", price := 280, category := "NAMKEEN 1 KG",
    variations := ["bhavnagri", "bhav nagari"] }

def naiSebItem : MenuItem :=
  { name := "NAI SEB (1 KG)", price := 280, category := "NAMKEEN 1 KG",
    variations := ["nai sev", "nylon sev"] }

def haraMixItem : MenuItem :=
  { name := "HARA MIX (1 KG)", price := 320, category := "NAMKEEN 1 KG",
    variations := ["hara mix", "green mix"] }

def falhariSabudanaItem : MenuItem :=
  { name := "FALHARI SABUDANA (1 KG)", price := 320, category := "NAMKEEN 1 KG",
    variations := ["sabudana", "falhari"] }

def kajuMixtureItem : MenuItem :=
  { name := "KAJU MIXTURE (1 KG)", price := 320, category := "NAMKEEN 1 KG",
    variations := ["kaju mix", "cashew mix"] }

def masalaMixItem : MenuItem :=
  { name := "MASALA MIX (1 KG)", price := 280, category := "NAMKEEN 1 KG",
    variations := ["masala mix"] }

def khattaMeethaItem : MenuItem :=
  { name := "KHATTA MEETHA MIX (1 KG)", price := 300, category := "NAMKEEN 1 KG",
    variations := ["khatta meetha"] }

def lassiItem : MenuItem :=
  { name := "Lassi", price := 60, category := "DRINKS",
    variations := ["lassi", "chas", "chaach", "buttermilk"] }

def waterSmallItem : MenuItem :=
  { name := "Water Bottle Small", price := 10, category := "DRINKS",
    variations := ["pani", "water", "choti botal", "paani"] }

def waterBottleItem : MenuItem :=
  { name := "Water Bottle", price := 20, category := "DRINKS",
    variations := ["pani ki bottle", "bisleri", "badi bottle"] }

/-- Catalog `SHOP_MENU` from `src/services/menuData.ts`, in source order. -/
def SHOP_MENU : List MenuItem :=
  [samosaItem, kachoriItem, dalKachoriItem, aloovadaItem, mirchiVadaItem,
   lassanKoftaItem, khaman1kgItem, khaman250gmItem, khamanPlateItem, dhonaItem,
   smallChutneyItem, jalebi1kgItem, imarti1kgItem, jalebiPlateItem,
   imartiPlateItem, sweetsItem, namkeen1KgItem, sebBoondiItem, feekiPapdiItem,
   gathiyaItem, safedSebItem, kadkeItem, lahsunSebItem, podinaSebItem,
   bhavNagriItem, naiSebItem, haraMixItem, falhariSabudanaItem, kajuMixtureItem,
   masalaMixItem, khattaMeethaItem, lassiItem, waterSmallItem, waterBottleItem]

/-- The three match stages of `findMenuItem`, applied to the already
normalized (lowercased and trimmed) query `q`. -/
def findMenuItemCore (q : String) : Option MenuItem :=
  match SHOP_MENU.find? (fun item => jsToLower item.name == q) with
  | some m => some m
  | none =>
    match SHOP_MENU.find? (fun item => item.variations.any (fun v => jsToLower v == q)) with
    | some m => some m
    | none =>
      SHOP_MENU.find? (fun item =>
        strContains (jsToLower item.name) q || strContains q (jsToLower item.name))

/-- Function `findMenuItem` from `src/components/LiveShopAssistant.tsx` (lines 184-192):
lowercase and trim the query, then try exact canonical name, then exact
variation, then substring containment in either direction. -/
def findMenuItem (query : String) : Option MenuItem :=
  findMenuItemCore (jsTrim (jsToLower query))

/-! ## Order / insight data model (`src/types`, as used by the handler) -/

/-- Record `OrderItem`: one normalized line item of an order. -/
structure OrderItem where
  name : String
  quantity : ℚ
  notes : Option String
deriving DecidableEq, Repr

/-- Record `ShopOrder`: timestamps are epoch milliseconds (`Date.getTime()` of the
stored ISO string). -/
structure ShopOrder where
  id : String
  timestamp : ℤ
  items : List OrderItem
  status : String
  totalAmount : ℚ
deriving DecidableEq, Repr

/-- Record `ShopInsight`; `severity` is stored as a string, set at creation. -/
structure ShopInsight where
  id : String
  timestamp : ℤ
  category : String
  content : String
  severity : String
deriving DecidableEq, Repr

/-- Record `CountLog` for rows exported by the count-log history component. -/
structure CountLog where
  id : String
  timestamp : ℤ
  count : ℚ
  notes : Option String
  imageUrl : String
deriving DecidableEq, Repr

/-- JS `a || b` on an optional string: `undefined` and `""` are falsy. -/
def jsOrStr (a : Option String) (b : String) : String :=
  match a with
  | none => b
  | some s => if s = "" then b else s

/-- JS `a || b` on an optional number: `undefined` and `0` are falsy. -/
def jsOrNum (a : Option ℚ) (b : ℚ) : ℚ :=
  match a with
  | none => b
  | some x => if x = 0 then b else x

/-! ## logOrder payload normalization (`onmessage`, lines 485-508) -/

/-- One raw entry of a `logOrder` payload: either a bare string or an object
carrying any of the `name`/`item`/`quantity`/`qty`/`notes` fields. -/
inductive RawItem where
  | str (s : String)
  | obj (name item : Option String) (quantity qty : Option ℚ) (notes : Option String)
deriving DecidableEq, Repr

/-- Field read `rawName`: `typeof i === 'string' ? i : (i.name || i.item || "")`. -/
def RawItem.rawName : RawItem → String
  | .str s => s
  | .obj name item _ _ _ => jsOrStr name (jsOrStr item "")

/-- Field read `rawQty`: `typeof i === 'object' ? (i.quantity || i.qty || 1) : 1`;
`Number(rawQty)` on a number is the identity. -/
def RawItem.rawQty : RawItem → ℚ
  | .str _ => 1
  | .obj _ _ quantity qty _ => jsOrNum quantity (jsOrNum qty 1)

/-- Field read `rawNotes`: `typeof i === 'object' ? (i.notes || "") : ""`. -/
def RawItem.rawNotes : RawItem → String
  | .str _ => ""
  | .obj _ _ _ _ notes => jsOrStr notes ""

/-- Shapes of `fc.args` that the tolerant `logOrder` unpacking distinguishes:
a JSON array, an object with an `items` array, any other object (wrapped as a
single item), a non-object primitive (leaves `rawItems` empty), or
`null`/`undefined` (reading `.items` throws). -/
inductive LogArgs where
  | jsNull
  | arrayOf (l : List RawItem)
  | objWithItems (l : List RawItem)
  | objOther (o : RawItem)
  | primitive
deriving DecidableEq, Repr

/-- The `rawItems` extraction (lines 487-490); on `null` args the member read
`args.items` throws a `TypeError`, caught by the per-action handler. -/
def extractRawItems : LogArgs → Except String (List RawItem)
  | .jsNull => .error "TypeError: Cannot read properties of null (reading items)"
  | .arrayOf l => .ok l
  | .objWithItems l => .ok l
  | .objOther o => .ok [o]
  | .primitive => .ok []

/-- The normalization loop (lines 494-508): skip empty or "Unknown Item"
names, resolve the name through `findMenuItem`, keep the raw name on a miss,
drop empty notes. -/
def normalizeItems (raw : List RawItem) : List OrderItem :=
  raw.filterMap (fun i =>
    if i.rawName == "" || i.rawName == "Unknown Item" then none
    else
      some { name := match findMenuItem i.rawName with
                     | some m => m.name
                     | none => i.rawName,
             quantity := i.rawQty,
             notes := if i.rawNotes = "" then none else some i.rawNotes })

/-- The `totalAmount` reduce (lines 520-523 and 533-536): sum of matched
catalog price times quantity, 0 for unmatched names. -/
def orderTotal (items : List OrderItem) : ℚ :=
  items.foldl (fun sum item =>
    sum + match findMenuItem item.name with
          | some m => m.price * item.quantity
          | none => 0) 0

/-! ## Tool-call dispatch (`onmessage`, lines 479-599) -/

/-- The values the handler reads through refs while executing a batch:
`recentOrdersRef.current`, the wall clock, and the id `crypto.randomUUID()`
hands out.  React does not update the refs synchronously during a batch, so
the whole batch sees one `Env`. -/
structure Env where
  recentOrders : List ShopOrder
  now : ℤ
  freshId : String
deriving Repr

/-- A tool call's name together with its arguments, one constructor per
declared tool; `unknown` covers any other tool name (the dispatch chain then
leaves the initial `{ status: "Success" }` result untouched). -/
inductive CallPayload where
  | logOrder (args : LogArgs)
  | saveInsight (category content : String) (severity : Option String)
  | suggestCashierPrompt (promptText reason : Option String)
  | logSentiment (sentiment summary : String)
  | triggerTalkback (message : String)
  | unknown (n : String)
deriving DecidableEq, Repr

/-- Name `fc.name` for each payload shape. -/
def CallPayload.name : CallPayload → String
  | .logOrder _ => "logOrder"
  | .saveInsight _ _ _ => "saveInsight"
  | .suggestCashierPrompt _ _ => "suggestCashierPrompt"
  | .logSentiment _ _ => "logSentiment"
  | .triggerTalkback _ => "triggerTalkback"
  | .unknown n => n

/-- One element of `msg.toolCall.functionCalls`. -/
structure FunctionCall where
  id : String
  payload : CallPayload
deriving DecidableEq, Repr

def FunctionCall.name (fc : FunctionCall) : String := fc.payload.name

/-- The `result` object sent back for one action. -/
structure ToolResult where
  status : String
  error : Option String
deriving DecidableEq, Repr

/-- A cashier prompt as passed to `setCashierPrompt`. -/
structure CashierPrompt where
  text : String
  reason : Option String
deriving DecidableEq, Repr

/-- The state updates one action performs: an order emitted to the store and
session transcript, an insight likewise, a `setCashierPrompt` call
(`some none` models `setCashierPrompt(null)`), a `setCurrentSentiment` call. -/
structure ToolEffects where
  newOrder : Option ShopOrder
  newInsight : Option ShopInsight
  promptUpdate : Option (Option CashierPrompt)
  sentimentUpdate : Option (String × String)
deriving DecidableEq, Repr

def noEffects : ToolEffects :=
  { newOrder := none, newInsight := none, promptUpdate := none, sentimentUpdate := none }

/-- The locally recomputed running total used by `suggestCashierPrompt`
(lines 563-565): recent orders within a 300 s lookback. -/
def recentTotal (env : Env) : ℚ :=
  (env.recentOrders.filter (fun o => decide (env.now - o.timestamp < 300000))).foldl
    (fun acc o => acc + o.totalAmount) 0

/-- The body of the per-action `try` block (lines 484-583): executes one
action, returning its result and state updates, or the thrown exception.
The modelled throw sites are the member reads the source performs on
possibly-absent values (`args.items` on null, `.toLowerCase()` on an absent
`promptText`/`reason`). -/
def execCall (env : Env) : CallPayload → Except String (ToolResult × ToolEffects)
  | .logOrder args =>
    match extractRawItems args with
    | .error e => .error e
    | .ok rawItems =>
    let normalizedItems := normalizeItems rawItems
    if normalizedItems.length > 0 then
      -- "Context Merge Logic (10s window)" (line 513).  Note: the source's
      -- merge branch (lines 514-526) constructs and emits a fresh order
      -- exactly as the else branch (lines 527-540) does.
      if (match env.recentOrders.head? with
          | some lastOrder => decide (env.now - lastOrder.timestamp < 10000)
          | none => false) then
        let order : ShopOrder :=
          { id := env.freshId, timestamp := env.now, items := normalizedItems,
            status := "pending", totalAmount := orderTotal normalizedItems }
        .ok ({ status := "Order Logged", error := none },
             { newOrder := some order, newInsight := none,
               promptUpdate := some none, sentimentUpdate := none })
      else
        let order : ShopOrder :=
          { id := env.freshId, timestamp := env.now, items := normalizedItems,
            status := "pending", totalAmount := orderTotal normalizedItems }
        .ok ({ status := "Order Logged", error := none },
             { newOrder := some order, newInsight := none,
               promptUpdate := some none, sentimentUpdate := none })
    else
      .ok ({ status := "Empty/Unknown Order Ignored", error := none }, noEffects)
  | .saveInsight category content severity =>
    .ok ({ status := "Insight Saved", error := none },
         { newOrder := none,
           newInsight := some { id := env.freshId, timestamp := env.now,
                                category := category, content := content,
                                severity := jsOrStr severity "low" },
           promptUpdate := none, sentimentUpdate := none })
  | .suggestCashierPrompt promptText reason =>
    match promptText with
    | none => .error "TypeError: Cannot read properties of undefined (reading toLowerCase)"
    | some p =>
      if strContains (jsToLower p) "total" then
        .ok ({ status := "Prompt Displayed", error := none },
             { newOrder := none, newInsight := none,
               promptUpdate := some (some { text := "Total is ₹" ++ toString recentTotalVal,
                                            reason := some "Calculated from recent active orders" }),
               sentimentUpdate := none })
      else
        match reason with
        | none => .error "TypeError: Cannot read properties of undefined (reading toLowerCase)"
        | some r =>
          if strContains (jsToLower r) "total" then
            .ok ({ status := "Prompt Displayed", error := none },
                 { newOrder := none, newInsight := none,
                   promptUpdate := some (some { text := "Total is ₹" ++ toString recentTotalVal,
                                                reason := some "Calculated from recent active orders" }),
                   sentimentUpdate := none })
          else
            .ok ({ status := "Prompt Displayed", error := none },
                 { newOrder := none, newInsight := none,
                   promptUpdate := some (some { text := p, reason := some r }),
                   sentimentUpdate := none })
  | .logSentiment sentiment summary =>
    .ok ({ status := "Sentiment Logged", error := none },
         { newOrder := none, newInsight := none, promptUpdate := none,
           sentimentUpdate := some (sentiment, summary) })
  | .triggerTalkback _ =>
    .ok ({ status := "Speaking", error := none }, noEffects)
  | .unknown _ =>
    .ok ({ status := "Success", error := none }, noEffects)
where recentTotalVal := recentTotal env

/-- One element of the `functionResponses` array. -/
structure FunctionResponse where
  id : String
  name : String
  result : ToolResult
deriving DecidableEq, Repr

/-- The per-action map body including its `try`/`catch` (lines 481-594): a
thrown exception becomes that action's `{ status: "Error", error }` result and
the action performs no state update (all modelled throw sites precede any
state update in the source). -/
def runCall (env : Env) (fc : FunctionCall) : FunctionResponse × ToolEffects :=
  match execCall env fc.payload with
  | .ok (res, eff) => ({ id := fc.id, name := fc.name, result := res }, eff)
  | .error e => ({ id := fc.id, name := fc.name,
                   result := { status := "Error", error := some e } }, noEffects)

/-- The whole-batch map over `msg.toolCall.functionCalls`. -/
def processToolCall (env : Env) (calls : List FunctionCall) :
    List FunctionResponse × List ToolEffects :=
  ((calls.map (runCall env)).map Prod.fst, (calls.map (runCall env)).map Prod.snd)

def toolResponses (env : Env) (calls : List FunctionCall) : List FunctionResponse :=
  (processToolCall env calls).1

/-- Method `sendToolResponse` is invoked once with the whole response array when it
is non-empty (lines 596-599); modelled with the session present. -/
def sentBatches (env : Env) (calls : List FunctionCall) : List (List FunctionResponse) :=
  if (toolResponses env calls).length > 0 then [toolResponses env calls] else []

/-! ## Session history and cross-message state -/

/-- The consolidated `sessionHistory` structure (lines 211-219). -/
structure SessionHistory where
  orders : List ShopOrder
  insights : List ShopInsight
deriving DecidableEq, Repr

/-- Application of one action's queued `setSessionHistory` updates: orders and
insights are appended at the end (lines 526/539 and 557). -/
def applyToolEffects (h : SessionHistory) (eff : ToolEffects) : SessionHistory :=
  { orders := h.orders ++ (match eff.newOrder with | some o => [o] | none => []),
    insights := h.insights ++ (match eff.newInsight with | some i => [i] | none => []) }

/-- Modelled from the spec: the external Order/Insight Store behind the
`onNewOrder` callback lives in the application shell, which is not under
`src/`; the spec keeps recognized orders in a "recent" window and the handler
reads `recentOrders[0]` as the most recent order, so the store is
newest-first. -/
def storeNewOrder (store : List ShopOrder) (o : ShopOrder) : List ShopOrder :=
  o :: store

/-- The state visible across inbound messages: the store's recent orders (the
refs are refreshed between messages by a re-render) and the session history. -/
structure AppState where
  recentOrders : List ShopOrder
  sessionHistory : SessionHistory
deriving Repr

/-- Processing of one inbound tool-call message at wall-clock `now`. -/
def processMessageAt (st : AppState) (now : ℤ) (freshId : String)
    (calls : List FunctionCall) : AppState × List FunctionResponse :=
  let env : Env := { recentOrders := st.recentOrders, now := now, freshId := freshId }
  let effs := (processToolCall env calls).2
  ({ recentOrders := (effs.filterMap (fun e => e.newOrder)).foldl storeNewOrder st.recentOrders,
     sessionHistory := effs.foldl applyToolEffects st.sessionHistory },
   toolResponses env calls)

/-! ## Session lifecycle (`stopSession`, lines 653-694; `onclose`, 623-630) -/

/-- The component state `stopSession` and the `onclose` callback touch.
Browser handles (session, processor, source node, animation frame, audio
contexts) are modelled by their presence. -/
structure ComponentState where
  isActive : Bool
  isSpeaking : Bool
  isThinking : Bool
  visualizerData : List ℚ
  statusText : String
  hasSession : Bool
  hasProcessor : Bool
  hasSourceNode : Bool
  hasRaf : Bool
  hasInputContext : Bool
  hasOutputContext : Bool
  reconnectScheduled : Bool
  sessionHistory : SessionHistory
deriving Repr

/-- Function `stopSession` (lines 653-694): close and null the session, reset the
activity flags and visualizer, disconnect and null the audio plumbing. -/
def stopSession (s : ComponentState) : ComponentState :=
  { s with
    hasSession := false, isActive := false, isSpeaking := false,
    isThinking := false, visualizerData := List.replicate 30 0,
    hasProcessor := false, hasSourceNode := false, hasRaf := false,
    hasInputContext := false, hasOutputContext := false }

/-- The `onclose` callback (lines 623-630): while intended to be active, set
the reconnect status text, tear down, and schedule `startSession`. -/
def oncloseHandler (s : ComponentState) : ComponentState :=
  if s.isActive then
    { stopSession { s with statusText := "RECONNECTING..." } with
      reconnectScheduled := true }
  else s

/-! ## CSV exporters -/

/-- Test `/^[=+\x2d@]/.test(str)`: does the string start with a spreadsheet
formula character? -/
def startsWithFormulaChar (s : String) : Bool :=
  match s.toList with
  | [] => false
  | c :: _ => c = '=' || c = '+' || c = '-' || c = '@'

/-- Replacement `str.replace(/"/g, Q)` with `Q` two quote characters: every quote
character is expanded to two. -/
def escapeQuotes (s : String) : String :=
  String.mk (s.toList.flatMap (fun c => if c = '"' then ['"', '"'] else [c]))

/-- The formula-neutralization step of the sanitizer. -/
def neutralizeFormula (s : String) : String :=
  if startsWithFormulaChar s then "\x27" ++ s else s

/-- Function `sanitizeForCsv` (lines 311-322), applied to the string form of the
field: neutralize a leading formula character with a quote-prefix, double any
embedded double quotes, wrap in double quotes. -/
def sanitizeForCsv (field : String) : String :=
  "\"" ++ (if strContains (neutralizeFormula field) "\"" then
      escapeQuotes (neutralizeFormula field)
    else neutralizeFormula field) ++ "\""

def reportHeaders : List String :=
  ["Timestamp", "Type", "Qty", "Item/Content", "Notes/Category", "Total"]

/-- The raw (pre-sanitization) rows of the session report (lines 285-308).
`fmtTime` and `fmtNum` stand for `toLocaleTimeString` and JS number
stringification, which the source delegates to the host locale. -/
def reportRows (fmtTime : ℤ → String) (fmtNum : ℚ → String)
    (h : SessionHistory) : List (List String) :=
  (h.orders.flatMap fun o =>
    o.items.map fun item =>
      [fmtTime o.timestamp, "ORDER", fmtNum item.quantity, item.name,
       jsOrStr item.notes "",
       fmtNum ((match findMenuItem item.name with
                | some m => m.price
                | none => 0) * item.quantity)])
  ++ h.insights.map fun i =>
    [fmtTime i.timestamp, "INSIGHT", "", i.content,
     i.category ++ " (" ++ (if i.severity = "" then "low" else i.severity) ++ ")", ""]

/-- The lines of the session report CSV (lines 282-327): nothing on an empty
history, else the header row followed by one sanitized line per raw row. -/
def generateSessionReportLines (fmtTime : ℤ → String) (fmtNum : ℚ → String)
    (h : SessionHistory) : List String :=
  if h.orders.length = 0 && h.insights.length = 0 then []
  else
    String.intercalate "," reportHeaders ::
      (reportRows fmtTime fmtNum h).map
        (fun r => String.intercalate "," (r.map sanitizeForCsv))

def countLogHeaders : List String := ["Date", "Time", "Count", "Notes"]

/-- One data row of the count-log export (`downloadCSV`, part_000 lines
17-25): each field is wrapped in quotes with no further processing.
`fmtDate`/`fmtTime`/`fmtNum` stand for the locale date, locale time and JS
number stringification. -/
def countLogRow (fmtDate fmtTime : ℤ → String) (fmtNum : ℚ → String)
    (log : CountLog) : String :=
  String.intercalate ","
    (([fmtDate log.timestamp, fmtTime log.timestamp, fmtNum log.count,
       jsOrStr log.notes ""]).map (fun e => "\"" ++ e ++ "\""))

/-- The lines of the count-log CSV (`downloadCSV`, part_000 lines 14-26):
nothing when there are no logs, else header row plus one row per log. -/
def downloadCSVLines (fmtDate fmtTime : ℤ → String) (fmtNum : ℚ → String)
    (logs : List CountLog) : List String :=
  if logs.length = 0 then []
  else String.intercalate "," countLogHeaders ::
    logs.map (countLogRow fmtDate fmtTime fmtNum)

/-! ## Dashboard visibility (`getVisibleOrders`, lines 705-715) -/

/-- Function `getVisibleOrders`: keep the orders whose wall-clock age in seconds is
below 90 s when the joined item names contain "jalebi" or "imarti" or the
order has more than 3 line items, below 45 s otherwise. -/
def getVisibleOrders (currentTime : ℤ) (recentOrders : List ShopOrder) :
    List ShopOrder :=
  recentOrders.filter (fun order =>
    let orderAge : ℚ := ((currentTime - order.timestamp : ℤ) : ℚ) / 1000
    let itemsStr := String.intercalate " " (order.items.map (fun i => i.name))
    let hasJalebi := strContains (jsToLower itemsStr) "jalebi" ||
                     strContains (jsToLower itemsStr) "imarti"
    let isLarge := order.items.length > 3
    decide (orderAge < (if hasJalebi || decide isLarge then (90 : ℚ) else 45)))

/-! ## Outbound audio (`downsampleBuffer`, lines 125-134; `createBlob`,
lines 136-153) -/

/-- Function `downsampleBuffer`: identity when the rates agree, else nearest-sample
decimation; index and length arithmetic is exact (`ℚ`), with `Math.floor`
on the non-negative values involved becoming `Nat.floor`. -/
def downsampleBuffer (buffer : List ℚ) (inputRate outputRate : ℕ) : List ℚ :=
  if inputRate = outputRate then buffer
  else
    (List.range ⌊(buffer.length : ℚ) / ((inputRate : ℚ) / (outputRate : ℚ))⌋₊).map
      (fun (i : ℕ) => buffer.getD ⌊(i : ℚ) * ((inputRate : ℚ) / (outputRate : ℚ))⌋₊ 0)

/-- Clamp `Math.max(-1, Math.min(1, s))`. -/
def clampSample (x : ℚ) : ℚ := max (-1) (min 1 x)

/-- Scaling `s < 0 ? s * 32768 : s * 32767` applied to the clamped sample. -/
def scaleSample (x : ℚ) : ℚ :=
  if clampSample x < 0 then clampSample x * 32768 else clampSample x * 32767

/-- Storing a JS number into an `Int16Array` slot: truncation toward zero. -/
def jsTruncToInt (q : ℚ) : ℤ :=
  if 0 ≤ q then ⌊q⌋ else ⌈q⌉

/-- The wraparound an `Int16Array` slot applies to an out-of-range integer. -/
def int16Store (v : ℤ) : ℤ := ((v + 32768) % 65536) - 32768

/-- The 16-bit value `createBlob` produces for one input sample. -/
def createBlobSample (x : ℚ) : ℤ := jsTruncToInt (scaleSample x)

/-- The conversion loop of `createBlob` (lines 139-142). -/
def createBlobSamples (data : List ℚ) : List ℤ := data.map createBlobSample

/-! # Theorems -/

/-- Every canonical catalog name resolves to its own entry. -/
theorem menu_canonical_resolves :
    ∀ item ∈ SHOP_MENU, findMenuItem item.name = some item := by decide

/-- Every declared alias resolves to the entry that declares it. -/
theorem menu_alias_resolves :
    ∀ item ∈ SHOP_MENU, ∀ v ∈ item.variations, findMenuItem v = some item := by
  decide

/-- C3: the Fuzzy Matcher applies its three rules in strict precedence: a
query equal to a canonical name under any casing returns that item; a query
equal to a declared alias under any casing returns the owning item; and the
substring rule answers only when neither an exact canonical nor an exact
alias match exists anywhere in the catalog (exact matches being taken, as in
the matcher, on the lowercased, trimmed key). -/
theorem fuzzy_matcher_precedence (q : String) :
    (∀ item ∈ SHOP_MENU, jsToLower q = jsToLower item.name →
      findMenuItem q = some item)
    ∧ (∀ item ∈ SHOP_MENU, ∀ v ∈ item.variations, jsToLower q = jsToLower v →
      findMenuItem q = some item)
    ∧ ((∀ item ∈ SHOP_MENU, jsToLower item.name ≠ jsTrim (jsToLower q)) →
      (∀ item ∈ SHOP_MENU, ∀ v ∈ item.variations,
        jsToLower v ≠ jsTrim (jsToLower q)) →
      findMenuItem q = SHOP_MENU.find? (fun item =>
        strContains (jsToLower item.name) (jsTrim (jsToLower q)) ||
        strContains (jsTrim (jsToLower q)) (jsToLower item.name))) := by
  refine ⟨?_, ?_, ?_⟩
  · intro item hmem hq
    have h := menu_canonical_resolves item hmem
    unfold findMenuItem at h ⊢
    rw [hq]
    exact h
  · intro item hmem v hv hq
    have h := menu_alias_resolves item hmem v hv
    unfold findMenuItem at h ⊢
    rw [hq]
    exact h
  · intro h1 h2
    unfold findMenuItem findMenuItemCore
    have e1 : SHOP_MENU.find?
        (fun item => jsToLower item.name == jsTrim (jsToLower q)) = none := by
      rw [List.find?_eq_none]
      intro item hmem
      simpa using h1 item hmem
    have e2 : SHOP_MENU.find?
        (fun item => item.variations.any (fun v => jsToLower v == jsTrim (jsToLower q))) = none := by
      rw [List.find?_eq_none]
      intro item hmem hany
      rw [List.any_eq_true] at hany
      obtain ⟨v, hv, hveq⟩ := hany
      exact h2 item hmem v hv (by simpa using hveq)
    rw [e1, e2]

/-- Closed instance of the precedence theorem: a cased canonical query, a
cased alias query, and a query with no exact match falling through to the
(empty) substring stage. -/
theorem fuzzy_matcher_precedence_witness :
    findMenuItem "SAMOSA" = some samosaItem
    ∧ findMenuItem "Pyaz Wali" = some kachoriItem
    ∧ findMenuItem "xyz12345" = none := by
  refine ⟨(fuzzy_matcher_precedence "SAMOSA").1 samosaItem (by decide) (by decide),
    (fuzzy_matcher_precedence "Pyaz Wali").2.1 kachoriItem (by decide)
      "pyaz wali" (by decide) (by decide), ?_⟩
  have h := (fuzzy_matcher_precedence "xyz12345").2.2 (by decide) (by decide)
  rw [h]
  decide

/-- C4: on the shipped catalog, "pyaaz kachori" resolves to the Kachori
entry, "mirchi bada" to the Mirchi Vada entry, and "xyz123" to no match. -/
theorem shipped_catalog_scenarios :
    findMenuItem "pyaaz kachori" = some kachoriItem
    ∧ findMenuItem "mirchi bada" = some mirchiVadaItem
    ∧ findMenuItem "xyz123" = none := by decide

/-- C6: an order is rendered iff its wall-clock age in seconds is below its
timeout — 90 s when the joined item names contain a designated high-value
item ("jalebi"/"imarti") or the order has more than 3 line items, 45 s
otherwise — and the filtering never deletes underlying records (the visible
list is a sublist of the store). -/
theorem dashboard_visibility (t : ℤ) (orders : List ShopOrder) :
    (getVisibleOrders t orders).Sublist orders
    ∧ ∀ o : ShopOrder, o ∈ getVisibleOrders t orders ↔
        o ∈ orders ∧
        ((t - o.timestamp : ℤ) : ℚ) / 1000 <
          (if strContains (jsToLower (String.intercalate " " (o.items.map (fun i => i.name)))) "jalebi"
              || strContains (jsToLower (String.intercalate " " (o.items.map (fun i => i.name)))) "imarti"
              || decide (o.items.length > 3)
           then (90 : ℚ) else 45) := by
  constructor
  · exact List.filter_sublist _
  · intro o
    unfold getVisibleOrders
    rw [List.mem_filter]
    simp only [decide_eq_true_eq]

/-- Closed instance of the visibility theorem: a high-value order is visible
at 89 s and hidden at 91 s, a plain order visible at 44 s and hidden at
46 s. -/
theorem dashboard_visibility_witness :
    (⟨"o1", 0, [⟨"Jalebi 1kg", 1, none⟩], "pending", 440⟩ : ShopOrder) ∈
      getVisibleOrders 89000 [⟨"o1", 0, [⟨"Jalebi 1kg", 1, none⟩], "pending", 440⟩]
    ∧ (⟨"o1", 0, [⟨"Jalebi 1kg", 1, none⟩], "pending", 440⟩ : ShopOrder) ∉
      getVisibleOrders 91000 [⟨"o1", 0, [⟨"Jalebi 1kg", 1, none⟩], "pending", 440⟩]
    ∧ (⟨"o2", 0, [⟨"Samosa", 1, none⟩], "pending", 10⟩ : ShopOrder) ∈
      getVisibleOrders 44000 [⟨"o2", 0, [⟨"Samosa", 1, none⟩], "pending", 10⟩]
    ∧ (⟨"o2", 0, [⟨"Samosa", 1, none⟩], "pending", 10⟩ : ShopOrder) ∉
      getVisibleOrders 46000 [⟨"o2", 0, [⟨"Samosa", 1, none⟩], "pending", 10⟩] := by
  refine ⟨?_, fun hmem => ?_, ?_, fun hmem => ?_⟩
  · apply ((dashboard_visibility 89000 _).2 _).mpr
    refine ⟨by decide, ?_⟩
    rw [if_pos (by decide)]
    norm_num
  · have h := (((dashboard_visibility 91000 _).2 _).mp hmem).2
    rw [if_pos (by decide)] at h
    norm_num at h
  · apply ((dashboard_visibility 44000 _).2 _).mpr
    refine ⟨by decide, ?_⟩
    rw [if_neg (by decide)]
    norm_num
  · have h := (((dashboard_visibility 46000 _).2 _).mp hmem).2
    rw [if_neg (by decide)] at h
    norm_num at h

/-- C7: the handler answers a batch with exactly one response per call,
correlated by the call's id (and name); each response is a function of its
own call alone, so a throwing sibling does not disturb the others; a thrown
action's response carries the Error status with the exception text; and all
responses of a message go out together in one batch. -/
theorem toolcall_batch_handling (env : Env) (calls : List FunctionCall) :
    (toolResponses env calls).length = calls.length
    ∧ (∀ i : ℕ, (toolResponses env calls).get? i =
        (calls.get? i).map (fun fc => (runCall env fc).1))
    ∧ (∀ fc : FunctionCall,
        (runCall env fc).1.id = fc.id ∧ (runCall env fc).1.name = fc.name)
    ∧ (∀ (fc : FunctionCall) (e : String), execCall env fc.payload = .error e →
        (runCall env fc).1.result = { status := "Error", error := some e })
    ∧ (calls ≠ [] → sentBatches env calls = [toolResponses env calls]) := by
  refine ⟨?_, ?_, ?_, ?_, ?_⟩
  · simp [toolResponses, processToolCall]
  · intro i
    simp only [toolResponses, processToolCall, List.map_map, List.get?_eq_getElem?,
      List.getElem?_map]
    rfl
  · intro fc
    unfold runCall
    cases h : execCall env fc.payload with
    | ok v => obtain ⟨res, eff⟩ := v; exact ⟨rfl, rfl⟩
    | error e => exact ⟨rfl, rfl⟩
  · intro fc e h
    unfold runCall
    rw [h]
  · intro h
    unfold sentBatches
    rw [if_pos]
    have : (toolResponses env calls).length = calls.length := by
      simp [toolResponses, processToolCall]
    rw [this]
    exact List.length_pos.mpr h

/-- Closed instance of the batch theorem: a two-call batch where the second
call throws (absent `promptText`); the first still answers and the second
reports the error. -/
theorem toolcall_batch_handling_witness :
    (toolResponses ⟨[], 0, "u1"⟩
        [⟨"c1", .triggerTalkback "hi"⟩, ⟨"c2", .suggestCashierPrompt none none⟩]).length = 2
    ∧ (runCall ⟨[], 0, "u1"⟩ ⟨"c2", .suggestCashierPrompt none none⟩).1.result =
        { status := "Error",
          error := some "TypeError: Cannot read properties of undefined (reading toLowerCase)" }
    ∧ (runCall ⟨[], 0, "u1"⟩ ⟨"c1", .triggerTalkback "hi"⟩).1.id = "c1" := by
  refine ⟨?_, ?_, ?_⟩
  · rw [(toolcall_batch_handling ⟨[], 0, "u1"⟩
      [⟨"c1", .triggerTalkback "hi"⟩, ⟨"c2", .suggestCashierPrompt none none⟩]).1]
    rfl
  · exact (toolcall_batch_handling ⟨[], 0, "u1"⟩ []).2.2.2.1
      ⟨"c2", .suggestCashierPrompt none none⟩ _ rfl
  · exact ((toolcall_batch_handling ⟨[], 0, "u1"⟩ []).2.2.1
      ⟨"c1", .triggerTalkback "hi"⟩).1

/-- Helper: an action other than `logOrder` and `saveInsight` emits no order
and no insight, whether it returns or throws. -/
theorem runCall_frame (env : Env) (fc : FunctionCall)
    (h1 : fc.name ≠ "logOrder") (h2 : fc.name ≠ "saveInsight") :
    (runCall env fc).2.newOrder = none ∧ (runCall env fc).2.newInsight = none := by
  obtain ⟨id, p⟩ := fc
  cases p with
  | logOrder args => exact absurd rfl h1
  | saveInsight c ct sv => exact absurd rfl h2
  | suggestCashierPrompt pt r =>
    rcases pt with - | p'
    · exact ⟨rfl, rfl⟩
    · rcases r with - | r'
      · by_cases hc : strContains (jsToLower p') "total" = true
        · simp [runCall, execCall, hc]
        · simp [runCall, execCall, hc, noEffects]
      · by_cases hc : strContains (jsToLower p') "total" = true
        · simp [runCall, execCall, hc]
        · by_cases hr : strContains (jsToLower r') "total" = true
          · simp [runCall, execCall, hc, hr]
          · simp [runCall, execCall, hc, hr]
  | logSentiment sv sm => exact ⟨rfl, rfl⟩
  | triggerTalkback m => exact ⟨rfl, rfl⟩
  | unknown n => exact ⟨rfl, rfl⟩

/-- C9: neither `stopSession` nor the `onclose` reconnect path changes the
session transcript, and an action appends to it only when it is a `logOrder`
or `saveInsight` execution — in particular a thrown action appends
nothing. -/
theorem session_history_persistence :
    (∀ s : ComponentState, (stopSession s).sessionHistory = s.sessionHistory)
    ∧ (∀ s : ComponentState, (oncloseHandler s).sessionHistory = s.sessionHistory)
    ∧ (∀ (env : Env) (fc : FunctionCall) (h : SessionHistory),
        fc.name ≠ "logOrder" → fc.name ≠ "saveInsight" →
        applyToolEffects h (runCall env fc).2 = h)
    ∧ (∀ (env : Env) (fc : FunctionCall) (h : SessionHistory) (e : String),
        execCall env fc.payload = .error e →
        applyToolEffects h (runCall env fc).2 = h) := by
  refine ⟨fun s => rfl, ?_, ?_, ?_⟩
  · intro s
    unfold oncloseHandler
    split <;> rfl
  · intro env fc h h1 h2
    have heff := runCall_frame env fc h1 h2
    unfold applyToolEffects
    rw [heff.1, heff.2]
    simp
  · intro env fc h e hex
    unfold runCall
    rw [hex]
    simp [applyToolEffects, noEffects]

/-- Closed instance of the persistence theorem: a sentiment call leaves an
empty transcript empty. -/
theorem session_history_persistence_witness :
    applyToolEffects ⟨[], []⟩
      (runCall ⟨[], 0, "u2"⟩ ⟨"c9", .logSentiment "positive" "ok"⟩).2 = ⟨[], []⟩ := by
  exact session_history_persistence.2.2.1 ⟨[], 0, "u2"⟩
    ⟨"c9", .logSentiment "positive" "ok"⟩ ⟨[], []⟩ (by decide) (by decide)

/-- Helper: the handler's left fold computing `totalAmount` equals the sum
over the items of matched-price times quantity. -/
theorem orderTotal_eq_sum (items : List OrderItem) :
    orderTotal items = (items.map (fun item =>
      match findMenuItem item.name with
      | some m => m.price * item.quantity
      | none => 0)).sum := by
  have key : ∀ (f : OrderItem → ℚ) (l : List OrderItem) (a : ℚ),
      l.foldl (fun sum item => sum + f item) a = a + (l.map f).sum := by
    intro f l
    induction l with
    | nil => intro a; simp
    | cons x xs ih =>
      intro a
      simp only [List.foldl_cons, List.map_cons, List.sum_cons, ih]
      ring
  unfold orderTotal
  simpa using key (fun item =>
    match findMenuItem item.name with
    | some m => m.price * item.quantity
    | none => 0) items 0

/-- C5: every order the logOrder handler creates carries a `totalAmount`
equal to the sum over its normalized items of the matched catalog price times
the quantity, with 0 for items whose name resolves to no catalog entry. -/
theorem order_total_correct (env : Env) (args : LogArgs) (res : ToolResult)
    (eff : ToolEffects) (o : ShopOrder)
    (hexec : execCall env (.logOrder args) = .ok (res, eff))
    (horder : eff.newOrder = some o) :
    o.totalAmount = (o.items.map (fun item =>
      match findMenuItem item.name with
      | some m => m.price * item.quantity
      | none => 0)).sum := by
  cases hargs : extractRawItems args with
  | error e =>
    simp only [execCall, hargs] at hexec
    exact absurd hexec (by simp)
  | ok rawItems =>
    simp only [execCall, hargs] at hexec
    split at hexec
    · split at hexec
      · obtain ⟨-, rfl⟩ := Prod.mk.inj (Except.ok.inj hexec)
        obtain rfl := Option.some.inj horder
        exact orderTotal_eq_sum (normalizeItems rawItems)
      · obtain ⟨-, rfl⟩ := Prod.mk.inj (Except.ok.inj hexec)
        obtain rfl := Option.some.inj horder
        exact orderTotal_eq_sum (normalizeItems rawItems)
    · obtain ⟨-, rfl⟩ := Prod.mk.inj (Except.ok.inj hexec)
      exact absurd horder (by simp [noEffects])

/-- Closed instance of the total-amount theorem, at a logOrder call for two
Kachori. -/
theorem order_total_correct_witness :
    (⟨"w5", 0, [⟨"Kachori", 2, none⟩], "pending",
        orderTotal [⟨"Kachori", 2, none⟩]⟩ : ShopOrder).totalAmount =
      (([⟨"Kachori", 2, none⟩] : List OrderItem).map (fun item =>
        match findMenuItem item.name with
        | some m => m.price * item.quantity
        | none => 0)).sum := by
  exact order_total_correct ⟨[], 0, "w5"⟩
    (.arrayOf [.obj (some "Kachori") none (some 2) none none])
    { status := "Order Logged", error := none }
    { newOrder := some ⟨"w5", 0, [⟨"Kachori", 2, none⟩], "pending",
        orderTotal [⟨"Kachori", 2, none⟩]⟩,
      newInsight := none, promptUpdate := some none, sentimentUpdate := none }
    _ rfl rfl

/-- C1, evaluated at the failing input: two one-item logOrder messages 5
seconds apart.  The first leaves one stored order of timestamp 0; the second
arrives with the most recent order 5 s old — inside the 10 s context-merge
window — yet the transcript ends with TWO stored orders, because the source's
merge branch builds a fresh order exactly like the non-merge branch.  (At 40 s
apart the count is 2 as well, as the claim expects.) -/
theorem context_merge_failing_input :
    ((processMessageAt ⟨[], ⟨[], []⟩⟩ 0 "id1"
        [⟨"c1", .logOrder (.arrayOf [.obj (some "Samosa") none (some 1) none none])⟩]).1).sessionHistory.orders.length = 1
    ∧ ((processMessageAt ⟨[], ⟨[], []⟩⟩ 0 "id1"
        [⟨"c1", .logOrder (.arrayOf [.obj (some "Samosa") none (some 1) none none])⟩]).1).recentOrders.map
        (fun o => o.timestamp) = [0]
    ∧ ((processMessageAt
        (processMessageAt ⟨[], ⟨[], []⟩⟩ 0 "id1"
          [⟨"c1", .logOrder (.arrayOf [.obj (some "Samosa") none (some 1) none none])⟩]).1
        5000 "id2"
        [⟨"c2", .logOrder (.arrayOf [.obj (some "Kachori") none (some 1) none none])⟩]).1).sessionHistory.orders.length = 2
    ∧ ((processMessageAt
        (processMessageAt ⟨[], ⟨[], []⟩⟩ 0 "id1"
          [⟨"c1", .logOrder (.arrayOf [.obj (some "Samosa") none (some 1) none none])⟩]).1
        5000 "id2"
        [⟨"c2", .logOrder (.arrayOf [.obj (some "Kachori") none (some 1) none none])⟩]).2).map
        (fun r => r.result.status) = ["Order Logged"]
    ∧ ((processMessageAt
        (processMessageAt ⟨[], ⟨[], []⟩⟩ 0 "id1"
          [⟨"c1", .logOrder (.arrayOf [.obj (some "Samosa") none (some 1) none none])⟩]).1
        40000 "id2"
        [⟨"c2", .logOrder (.arrayOf [.obj (some "Kachori") none (some 1) none none])⟩]).1).sessionHistory.orders.length = 2 := by
  exact ⟨rfl, rfl, rfl, rfl, rfl⟩

/-- Helper: a string free of double quotes passes the quote-doubling step
unchanged. -/
theorem escapeQuotes_of_not_contains (t : String)
    (h : strContains t "\"" = false) : escapeQuotes t = t := by
  unfold strContains at h
  rw [decide_eq_false_iff_not] at h
  unfold escapeQuotes
  have key : ∀ l : List Char, ¬ (("\"".toList) <:+: l) →
      l.flatMap (fun c => if c = '"' then ['"', '"'] else [c]) = l := by
    intro l
    induction l with
    | nil => intro _; rfl
    | cons c cs ih =>
      intro hl
      have hc : c ≠ '"' := by
        intro hceq
        exact hl ⟨[], cs, by rw [hceq]; rfl⟩
      have hcs : ¬ (("\"".toList) <:+: cs) := by
        intro hin
        obtain ⟨l₁, l₂, e⟩ := hin
        exact hl ⟨c :: l₁, l₂, by rw [← e]; rfl⟩
      simp [hc, ih hcs]
  rw [key t.toList h]
  rfl

/-- Helper: quote doubling distributes over string append. -/
theorem escapeQuotes_append (a b : String) :
    escapeQuotes (a ++ b) = escapeQuotes a ++ escapeQuotes b := by
  unfold escapeQuotes
  show String.mk ((a.data ++ b.data).flatMap _) = _
  rw [List.flatMap_append]
  rfl

/-- Helper: quote doubling exactly doubles the number of double-quote
characters. -/
theorem escapeQuotes_count (s : String) :
    (escapeQuotes s).toList.count '"' = 2 * s.toList.count '"' := by
  show (s.toList.flatMap fun c => if c = '"' then ['"', '"'] else [c]).count '"' =
    2 * s.toList.count '"'
  induction s.toList with
  | nil => rfl
  | cons c cs ih =>
    rw [List.flatMap_cons, List.count_append, ih]
    by_cases hc : c = '"'
    · subst hc
      simp [List.count_cons]
      omega
    · simp [hc, List.count_cons]

/-- C2 (amended): the session-report sanitizer wraps every field in quotes,
prefixes values that start with a formula character with the neutralizing
apostrophe, and doubles every embedded double quote — and the session report
applies it to every field of every data row; the count-log exporter, in
contrast, only wraps each raw field in quotes. -/
theorem csv_sanitization (s : String) (fmtD fmtT : ℤ → String) (fmtN : ℚ → String)
    (h : SessionHistory) (logs : List CountLog) :
    (sanitizeForCsv s = "\"" ++ escapeQuotes (neutralizeFormula s) ++ "\"")
    ∧ (startsWithFormulaChar s = true →
        sanitizeForCsv s = "\"" ++ ("\x27" ++ escapeQuotes s) ++ "\"")
    ∧ ((escapeQuotes s).toList.count '"' = 2 * s.toList.count '"')
    ∧ (∀ line ∈ (generateSessionReportLines fmtT fmtN h).tail,
        ∃ r ∈ reportRows fmtT fmtN h,
          line = String.intercalate "," (r.map sanitizeForCsv))
    ∧ (∀ log ∈ logs, countLogRow fmtD fmtT fmtN log =
        String.intercalate ","
          ([fmtD log.timestamp, fmtT log.timestamp, fmtN log.count,
            jsOrStr log.notes ""].map (fun e => "\"" ++ e ++ "\""))) := by
  have h1 : sanitizeForCsv s = "\"" ++ escapeQuotes (neutralizeFormula s) ++ "\"" := by
    unfold sanitizeForCsv
    by_cases hq : strContains (neutralizeFormula s) "\"" = true
    · rw [if_pos hq]
    · rw [if_neg hq]
      have hq' : strContains (neutralizeFormula s) "\"" = false := by
        revert hq; cases strContains (neutralizeFormula s) "\"" <;> simp
      rw [escapeQuotes_of_not_contains _ hq']
  refine ⟨h1, ?_, escapeQuotes_count s, ?_, ?_⟩
  · intro hf
    rw [h1]
    unfold neutralizeFormula
    rw [if_pos hf, escapeQuotes_append]
    have : escapeQuotes "\x27" = "\x27" := by decide
    rw [this]
  · intro line hline
    unfold generateSessionReportLines at hline
    by_cases he : (h.orders.length = 0 && h.insights.length = 0) = true
    · rw [if_pos he] at hline
      exact absurd hline (List.not_mem_nil line)
    · rw [if_neg he] at hline
      rw [List.tail_cons] at hline
      obtain ⟨r, hr, rfl⟩ := List.mem_map.mp hline
      exact ⟨r, hr, rfl⟩
  · intro log _
    rfl

/-- Counterexample to C2 as stated: a count-log row whose notes field starts
with a formula character is emitted without the neutralizing prefix (and would
keep any embedded quote undoubled) — the count-log exporter merely wraps
fields in quotes. -/
theorem countlog_no_sanitization :
    countLogRow (fun _ => "10/12/2026") (fun _ => "10:00:00") (fun _ => "5")
        ⟨"log1", 0, 5, some "=SUM(A1)", "img"⟩ =
      "\"10/12/2026\",\"10:00:00\",\"5\",\"=SUM(A1)\""
    ∧ sanitizeForCsv "=SUM(A1)" = "\"\x27=SUM(A1)\""
    ∧ ("\"=SUM(A1)\"" : String) ≠ sanitizeForCsv "=SUM(A1)" := by
  refine ⟨by decide, by decide, by decide⟩

/-- Closed instance of the sanitizer theorem: the formula-prefix clause at a
concrete field and the count-log plain wrapping at a concrete log. -/
theorem csv_sanitization_witness :
    sanitizeForCsv "=2" = "\"" ++ ("\x27" ++ escapeQuotes "=2") ++ "\""
    ∧ countLogRow (fun _ => "d") (fun _ => "t") (fun _ => "5")
        ⟨"w", 0, 5, none, "i"⟩ =
      String.intercalate ","
        ([(fun _ : ℤ => "d") 0, (fun _ : ℤ => "t") 0, (fun _ : ℚ => "5") 5,
          jsOrStr none ""].map (fun e => "\"" ++ e ++ "\"")) := by
  exact ⟨(csv_sanitization "=2" (fun _ => "d") (fun _ => "t") (fun _ => "5")
      ⟨[], []⟩ []).2.1 (by decide),
    (csv_sanitization "=2" (fun _ => "d") (fun _ => "t") (fun _ => "5")
      ⟨[], []⟩ [⟨"w", 0, 5, none, "i"⟩]).2.2.2.2 ⟨"w", 0, 5, none, "i"⟩
      (by decide)⟩

/-- C8: for a positive input rate `r`, the downsampler emits
`floor(n * 16000 / r)` samples, output sample `i` is input sample
`floor(i * r / 16000)`, and at equal rates the buffer is returned
unchanged. -/
theorem downsample_decimation (r : ℕ) (hr : 0 < r) (buffer : List ℚ) :
    (downsampleBuffer buffer r 16000).length = buffer.length * 16000 / r
    ∧ (∀ i : ℕ, (downsampleBuffer buffer r 16000).get? i =
        if i < buffer.length * 16000 / r then
          some (buffer.getD (i * r / 16000) 0)
        else none)
    ∧ downsampleBuffer buffer 16000 16000 = buffer := by
  have third : downsampleBuffer buffer 16000 16000 = buffer := by
    unfold downsampleBuffer
    rw [if_pos rfl]
  by_cases h16 : r = 16000
  · subst h16
    refine ⟨?_, ?_, third⟩
    · rw [third]
      omega
    · intro i
      rw [third]
      have hidx : i * 16000 / 16000 = i := by omega
      have hn : buffer.length * 16000 / 16000 = buffer.length := by omega
      rw [hidx, hn, List.get?_eq_getElem?]
      by_cases hi : i < buffer.length
      · rw [if_pos hi, List.getElem?_eq_getElem hi,
          List.getD_eq_getElem?_getD, List.getElem?_eq_getElem hi]
        rfl
      · rw [if_neg hi, List.getElem?_eq_none (Nat.le_of_not_lt hi)]
  · have hlen : ⌊(buffer.length : ℚ) / ((r : ℚ) / ((16000 : ℕ) : ℚ))⌋₊ =
        buffer.length * 16000 / r := by
      rw [div_div_eq_mul_div]
      have hc : ((buffer.length : ℚ) * ((16000 : ℕ) : ℚ)) =
          ((buffer.length * 16000 : ℕ) : ℚ) := by push_cast; ring
      rw [hc, Nat.floor_div_nat, Nat.floor_natCast]
    have hidx : ∀ i : ℕ,
        ⌊(i : ℚ) * ((r : ℚ) / ((16000 : ℕ) : ℚ))⌋₊ = i * r / 16000 := by
      intro i
      rw [mul_div_assoc']
      have hc : ((i : ℚ) * (r : ℚ)) = ((i * r : ℕ) : ℚ) := by push_cast; ring
      rw [hc, Nat.floor_div_nat, Nat.floor_natCast]
    have hform : downsampleBuffer buffer r 16000 =
        (List.range (buffer.length * 16000 / r)).map
          (fun i => buffer.getD (i * r / 16000) 0) := by
      unfold downsampleBuffer
      rw [if_neg h16, hlen]
      refine List.map_congr_left ?_
      intro i _
      rw [hidx i]
    refine ⟨?_, ?_, third⟩
    · rw [hform, List.length_map, List.length_range]
    · intro i
      rw [hform, List.get?_eq_getElem?, List.getElem?_map]
      by_cases hi : i < buffer.length * 16000 / r
      · rw [if_pos hi, List.getElem?_range hi]
        rfl
      · rw [if_neg hi, List.getElem?_eq_none
          (by rw [List.length_range]; exact Nat.le_of_not_lt hi)]
        rfl

/-- Closed instance of the decimation theorem at a 48 kHz input: a 6-sample
buffer yields 2 samples, the second being input sample 3. -/
theorem downsample_decimation_witness :
    (downsampleBuffer [0, 1, 2, 3, 4, 5] 48000 16000).length = 2
    ∧ (downsampleBuffer [0, 1, 2, 3, 4, 5] 48000 16000).get? 1 = some 3 := by
  obtain ⟨h1, h2, -⟩ := downsample_decimation 48000 (by norm_num) [0, 1, 2, 3, 4, 5]
  refine ⟨by rw [h1]; rfl, ?_⟩
  rw [h2 1]
  decide

/-- C10: every 16-bit sample the encoder emits — for any input buffer,
including samples outside [-1, 1] — lies in the signed 16-bit range, so the
`Int16Array` store is the identity on it (no overflow or wraparound). -/
theorem pcm_sample_range (data : List ℚ) (v : ℤ)
    (hv : v ∈ createBlobSamples data) :
    -32768 ≤ v ∧ v ≤ 32767 ∧ int16Store v = v := by
  obtain ⟨x, -, rfl⟩ := List.mem_map.mp hv
  have hs1 : (-1 : ℚ) ≤ clampSample x := le_max_left _ _
  have hs2 : clampSample x ≤ 1 := max_le (by norm_num) (min_le_left _ _)
  have hb : -32768 ≤ createBlobSample x ∧ createBlobSample x ≤ 32767 := by
    unfold createBlobSample scaleSample jsTruncToInt
    by_cases hneg : clampSample x < 0
    · rw [if_pos hneg]
      have hq1 : (-32768 : ℚ) ≤ clampSample x * 32768 := by nlinarith
      have hq2 : clampSample x * 32768 < 0 := by nlinarith
      rw [if_neg (by linarith : ¬ (0 : ℚ) ≤ clampSample x * 32768)]
      constructor
      · have hlt : (-32769 : ℤ) < ⌈clampSample x * 32768⌉ :=
          Int.lt_ceil.mpr (by push_cast; linarith)
        omega
      · have hle : ⌈clampSample x * 32768⌉ ≤ 32767 :=
          Int.ceil_le.mpr (by push_cast; linarith)
        omega
    · rw [if_neg hneg]
      have h0 : (0 : ℚ) ≤ clampSample x := le_of_not_lt hneg
      have hq1 : (0 : ℚ) ≤ clampSample x * 32767 := by nlinarith
      have hq2 : clampSample x * 32767 ≤ 32767 := by nlinarith
      rw [if_pos hq1]
      constructor
      · have h0f : (0 : ℤ) ≤ ⌊clampSample x * 32767⌋ := Int.floor_nonneg.mpr hq1
        omega
      · have hlt : ⌊clampSample x * 32767⌋ < 32768 :=
          Int.floor_lt.mpr (by push_cast; linarith)
        omega
  refine ⟨hb.1, hb.2, ?_⟩
  unfold int16Store
  omega

/-- Closed instance of the range theorem, at an out-of-range input sample. -/
theorem pcm_sample_range_witness :
    -32768 ≤ createBlobSample 2 ∧ createBlobSample 2 ≤ 32767
    ∧ int16Store (createBlobSample 2) = createBlobSample 2 := by
  exact pcm_sample_range [2] (createBlobSample 2) (by simp [createBlobSamples])
